import Mathlib

/-
Verification of the Pyomo units module (pyomo/core/base/units.py): a shallow
embedding of the unit-inference visitor, its per-node-kind dispatch rules, the
public consistency-checking API, and the attribute-style unit registry of
PyomoUnitsContainer.

Modelling conventions:
* Python / pint floating-point numbers are modelled as rationals (ℚ).
* A pint unit is modelled as its units container identity (a display string),
  its dimensionality vector, and its (multiplicative) scale factor relative to
  base units.  `_pint_units_equivalent` in the source compares `1.0*lhs` and
  `1.0*rhs` as pint quantities: equal dimensionality and
  `abs(lhsq - rhsq).magnitude < tol`, where the subtraction converts `rhs`
  into the units of `lhs`, giving magnitude `|1 - scale rhs / scale lhs|`.
* Pyomo-side "units" are expression objects built from `_PyomoUnit` leaves by
  `*`, `1.0/x` and `**`; they are modelled by the inductive `PyomoUnitT`.
* Python exceptions are modelled with `Except PyErr`.
-/

/-- Dimensionality vector over a three-axis universe (length, mass, time):
enough axes for every unit appearing in the development.  Pint stores a
name-to-exponent mapping; a fixed record of rational exponents models it. -/
structure Dims where
  length : ℚ
  mass : ℚ
  time : ℚ
deriving DecidableEq, Repr

/-- Component-wise sum of dimension vectors (unit multiplication). -/
def Dims.add (a b : Dims) : Dims :=
  ⟨a.length + b.length, a.mass + b.mass, a.time + b.time⟩

/-- Component-wise negation of a dimension vector (unit reciprocal). -/
def Dims.neg (a : Dims) : Dims :=
  ⟨-a.length, -a.mass, -a.time⟩

/-- Scales a dimension vector by a rational exponent (unit exponentiation). -/
def Dims.smul (e : ℚ) (a : Dims) : Dims :=
  ⟨e * a.length, e * a.mass, e * a.time⟩

/-- The all-zero (dimensionless) dimension vector. -/
def Dims.zero : Dims := ⟨0, 0, 0⟩

/-- A pint unit: its units-container identity rendered as a string (used only
for display and the object-equality fast path), its dimensionality, and its
scale factor relative to base units. -/
structure PintUnit where
  uname : String
  dims : Dims
  scale : ℚ
deriving DecidableEq, Repr

/-- Product of two pint units: dimension vectors add, scales multiply. -/
def PintUnit.mul (a b : PintUnit) : PintUnit :=
  ⟨a.uname ++ "*" ++ b.uname, a.dims.add b.dims, a.scale * b.scale⟩

/-- Reciprocal of a pint unit (the source computes `1.0/pint_unit`):
dimension vector negates, scale inverts. -/
def PintUnit.inv (a : PintUnit) : PintUnit :=
  ⟨"1/(" ++ a.uname ++ ")", a.dims.neg, a.scale⁻¹⟩

/-- Rational stand-in for real exponentiation of a scale factor.  Exact for
integer exponents and for scale 1; a fractional exponent on a scale other
than 1 produces an irrational number in general, which has no exact rational
representative, so the model returns 1 there (no theorem in this development
evaluates that branch). -/
def ratPow (s : ℚ) (e : ℚ) : ℚ :=
  if s = 1 then 1 else if e.den = 1 then s ^ e.num else 1

/-- Power of a pint unit by a rational exponent: dimension vector scales,
scale factor is exponentiated. -/
def PintUnit.pow (a : PintUnit) (e : ℚ) : PintUnit :=
  ⟨"(" ++ a.uname ++ ")**" ++ toString e, Dims.smul e a.dims, ratPow a.scale e⟩

/-- Default tolerance of the visitor (`units_equivalence_tolerance=1e-12`). -/
def unitsEquivalenceTolerance : ℚ := 1 / 10 ^ 12

/-- Embedding of `_UnitExtractionVisitor._pint_units_equivalent`: object
equality fast path, then equal dimensionality together with
`abs(1.0*lhs - 1.0*rhs).magnitude < tol`, i.e. `|1 - scale rhs / scale lhs|`
below the tolerance. -/
def pintUnitsEquivalentTol (tol : ℚ) (lhs rhs : PintUnit) : Bool :=
  if lhs = rhs then true
  else lhs.dims = rhs.dims && |1 - rhs.scale / lhs.scale| < tol

/-- Unit equivalence at the visitor's default tolerance (the public entry
point `_get_units_tuple` always constructs the visitor with the default). -/
def pintEquiv (lhs rhs : PintUnit) : Bool :=
  pintUnitsEquivalentTol unitsEquivalenceTolerance lhs rhs

/-- The dimensionless pint unit: empty container, zero dims, scale 1. -/
def dimensionlessPint : PintUnit := ⟨"dimensionless", Dims.zero, 1⟩

/-- The pint `radian` unit.  In pint's default registry `radian = []` is a
unit with empty dimensionality and conversion factor 1, hence equivalent to
dimensionless under the tolerance check, while remaining a distinct unit
object. -/
def radiansPint : PintUnit := ⟨"rad", Dims.zero, 1⟩

/-- The pint meter unit. -/
def meterPint : PintUnit := ⟨"m", ⟨1, 0, 0⟩, 1⟩

/-- The pint kilogram unit. -/
def kilogramPint : PintUnit := ⟨"kg", ⟨0, 1, 0⟩, 1⟩

/-- The pint second unit. -/
def secondPint : PintUnit := ⟨"s", ⟨0, 0, 1⟩, 1⟩

/-- Pyomo-side unit value: a `_PyomoUnit` leaf wrapping a pint unit, or an
expression over such leaves built by the visitor with `*`, `1.0/x`, `**`. -/
inductive PyomoUnitT where
  | unit (u : PintUnit)
  | mul (a b : PyomoUnitT)
  | recip (a : PyomoUnitT)
  | pow (a : PyomoUnitT) (e : ℚ)
deriving DecidableEq, Repr

/-- The container's `dimensionless` attribute as a pyomo unit leaf. -/
def pyomoDimensionless : PyomoUnitT := .unit dimensionlessPint

/-- The container's `radians` attribute as a pyomo unit leaf. -/
def pyomoRadians : PyomoUnitT := .unit radiansPint

/-- Host expression-tree nodes, covering the node types the dispatch table of
`_UnitExtractionVisitor` handles (LinearExpression and IndexTemplate are not
modelled; no claim concerns them) plus `unknownOp`, standing for any
expression node type absent from `node_type_method_map`. -/
inductive PExpr where
  /-- native numeric leaf (member of `nonpyomo_leaf_types`) -/
  | num (q : ℚ)
  /-- a `_PyomoUnit` leaf carrying its pint unit -/
  | punit (u : PintUnit)
  /-- other leaf NumericValue (Var or Param): `isFixed` models `is_fixed()`,
  `val` its current value (`none` = uninitialized) -/
  | leafVar (isFixed : Bool) (val : Option ℚ)
  | equality (a b : PExpr)
  | inequality (a b : PExpr)
  | ranged (a b c : PExpr)
  | sum (args : List PExpr)
  | product (a b : PExpr)
  | monomial (coef v : PExpr)
  | reciprocal (a : PExpr)
  | powNode (base exp : PExpr)
  | negation (a : PExpr)
  | absNode (a : PExpr)
  | unaryFunc (name : String) (arg : PExpr)
  | exprIf (c t e : PExpr)
  | externalCall (args : List PExpr)
  | getItem (args : List PExpr)
  | unknownOp (args : List PExpr)

/-- Embedding of `is_leaf`: native numeric types and non-expression
NumericValue objects (units, Vars, Params) are leaves. -/
def isLeafE : PExpr → Bool
  | .num _ => true
  | .punit _ => true
  | .leafVar _ _ => true
  | _ => false

/-- The ordered argument list `node.args` of an expression node. -/
def argsOf : PExpr → List PExpr
  | .num _ => []
  | .punit _ => []
  | .leafVar _ _ => []
  | .equality a b => [a, b]
  | .inequality a b => [a, b]
  | .ranged a b c => [a, b, c]
  | .sum args => args
  | .product a b => [a, b]
  | .monomial c v => [c, v]
  | .reciprocal a => [a]
  | .powNode b e => [b, e]
  | .negation a => [a]
  | .absNode a => [a]
  | .unaryFunc _ a => [a]
  | .exprIf c t e => [c, t, e]
  | .externalCall args => args
  | .getItem args => args
  | .unknownOp args => args

/-- True exactly when the node is a native numeric leaf, the embedding of
`type(node) in nonpyomo_leaf_types`. -/
def isNativeLeaf : PExpr → Bool
  | .num _ => true
  | _ => false

mutual
/-- Embedding of `is_fixed()`: units are always fixed, a Var reports its
fixed flag, and an expression is fixed when all of its arguments are. -/
def isFixedE : PExpr → Bool
  | .num _ => true
  | .punit _ => true
  | .leafVar f _ => f
  | .equality a b => isFixedE a && isFixedE b
  | .inequality a b => isFixedE a && isFixedE b
  | .ranged a b c => isFixedE a && isFixedE b && isFixedE c
  | .sum args => isFixedL args
  | .product a b => isFixedE a && isFixedE b
  | .monomial c v => isFixedE c && isFixedE v
  | .reciprocal a => isFixedE a
  | .powNode b e => isFixedE b && isFixedE e
  | .negation a => isFixedE a
  | .absNode a => isFixedE a
  | .unaryFunc _ a => isFixedE a
  | .exprIf c t e => isFixedE c && isFixedE t && isFixedE e
  | .externalCall args => isFixedL args
  | .getItem args => isFixedL args
  | .unknownOp args => isFixedL args

/-- All members of a list of nodes are fixed. -/
def isFixedL : List PExpr → Bool
  | [] => true
  | e :: es => isFixedE e && isFixedL es
end

mutual
/-- Embedding of `is_constant()`: native numbers are constant, `_PyomoUnit`
deliberately reports False, Vars and Params are not constant, and an
expression is constant when all of its arguments are. -/
def isConstE : PExpr → Bool
  | .num _ => true
  | .punit _ => false
  | .leafVar _ _ => false
  | .equality a b => isConstE a && isConstE b
  | .inequality a b => isConstE a && isConstE b
  | .ranged a b c => isConstE a && isConstE b && isConstE c
  | .sum args => isConstL args
  | .product a b => isConstE a && isConstE b
  | .monomial c v => isConstE c && isConstE v
  | .reciprocal a => isConstE a
  | .powNode b e => isConstE b && isConstE e
  | .negation a => isConstE a
  | .absNode a => isConstE a
  | .unaryFunc _ a => isConstE a
  | .exprIf c t e => isConstE c && isConstE t && isConstE e
  | .externalCall args => isConstL args
  | .getItem args => isConstL args
  | .unknownOp args => isConstL args

/-- All members of a list of nodes are constant. -/
def isConstL : List PExpr → Bool
  | [] => true
  | e :: es => isConstE e && isConstL es
end

/-- Tags distinguishing the individual `raise UnitsError(...)` sites of the
visitor (the formatted message strings themselves are not modelled). -/
inductive UnitsTag where
  /-- "Exponents in a pow expression must be dimensionless." -/
  | exponentNotDimensionless
  /-- "The base of an exponent has units ..., but the exponent is not a fixed
  numerical value." -/
  | exponentNotFixed
  /-- "Expected dimensionless units in ..., but found ...." -/
  | expectedDimensionless
  /-- "Expected radians in argument to function ..." -/
  | expectedRadians
  /-- "Expected dimensionless argument to function ..." -/
  | expectedDimensionlessArg
deriving DecidableEq, Repr

/-- An operand reported by `InconsistentUnitsError`: the equal-children rule
passes pint units, while the Expr_if rule passes pyomo units. -/
inductive UOperand where
  | pintU (u : PintUnit)
  | pyomoU (p : PyomoUnitT)
deriving DecidableEq, Repr

/-- Python exceptions that the embedded code can raise.  The first five model
the structured errors of the units module and its registry; the rest model
host-side (non-units) failures. -/
inductive PyErr where
  /-- `UnitsError`, tagged by raise site, carrying the offending node -/
  | unitsError (tag : UnitsTag) (node : PExpr)
  /-- `InconsistentUnitsError`, naming the two operands and the parent node -/
  | inconsistentUnits (x y : UOperand) (node : PExpr)
  /-- `TypeError` for an expression node type absent from
  `node_type_method_map` -/
  | typeErrorNode (node : PExpr)
  /-- `TypeError` for a unary function name absent from
  `unary_function_method_map` -/
  | typeErrorFunc (name : String) (node : PExpr)
  /-- builtin `AttributeError` raised by `PyomoUnitsContainer.__getattr__` -/
  | attributeError (name : String)
  /-- `pint.errors.UndefinedUnitError` raised inside the pint registry -/
  | pintUndefinedUnit (name : String)
  /-- host `ValueError`: `value()` of an uninitialized NumericValue -/
  | valueError
  /-- host `ZeroDivisionError` during numeric evaluation -/
  | zeroDivisionError
  /-- host `AssertionError` from a failed `assert` statement -/
  | assertionError
  /-- host `UnboundLocalError`: reading a local variable that was never
  bound (a `for` loop over an empty sequence binds nothing) -/
  | unboundLocalError
  /-- unspecified host-side failure from using a pyomo expression object
  where a pint unit is required (dynamic typing; not modelled further) -/
  | hostDynamic
  /-- `value()` of a node kind outside the rational model (transcendental
  functions, relational nodes); never evaluated by any theorem below -/
  | evalNotModelled

mutual
/-- Embedding of the numeric evaluator `value(...)`: exact on arithmetic
nodes; a `_PyomoUnit` evaluates to 1.0 (its `__call__`); an uninitialized
Var raises `ValueError`.  Nodes whose numeric value is not expressible in ℚ
are mapped to the `evalNotModelled` error (no theorem evaluates them). -/
def evalE : PExpr → Except PyErr ℚ
  | .num q => .ok q
  | .punit _ => .ok 1
  | .leafVar _ (some v) => .ok v
  | .leafVar _ none => .error .valueError
  | .sum args => do
      let vs ← evalL args
      .ok (vs.foldl (· + ·) 0)
  | .product a b => do
      let va ← evalE a
      let vb ← evalE b
      .ok (va * vb)
  | .monomial c v => do
      let vc ← evalE c
      let vv ← evalE v
      .ok (vc * vv)
  | .reciprocal a => do
      let va ← evalE a
      if va = 0 then .error .zeroDivisionError else .ok va⁻¹
  | .powNode b e => do
      let vb ← evalE b
      let ve ← evalE e
      .ok (ratPow vb ve)
  | .negation a => do
      let va ← evalE a
      .ok (-va)
  | .absNode a => do
      let va ← evalE a
      .ok |va|
  | .equality _ _ => .error .evalNotModelled
  | .inequality _ _ => .error .evalNotModelled
  | .ranged _ _ _ => .error .evalNotModelled
  | .unaryFunc _ _ => .error .evalNotModelled
  | .exprIf _ _ _ => .error .evalNotModelled
  | .externalCall _ => .error .evalNotModelled
  | .getItem _ => .error .evalNotModelled
  | .unknownOp _ => .error .evalNotModelled

/-- Numeric evaluation of a list of nodes, left to right. -/
def evalL : List PExpr → Except PyErr (List ℚ)
  | [] => .ok []
  | e :: es => do
      let v ← evalE e
      let vs ← evalL es
      .ok (v :: vs)
end

/-- The second component of a visitor result tuple.  The documented invariant
is that it holds a pint unit, but Python is dynamically typed and
`_get_unit_for_pow` places a pyomo unit object there in its
dimensionless-base branch, so the slot is modelled as a sum. -/
inductive PintSlot where
  | pint (u : PintUnit)
  | pyomo (p : PyomoUnitT)
deriving DecidableEq, Repr

/-- A `(PyomoUnit, pint unit)` visitor result tuple. -/
abbrev RTuple := PyomoUnitT × PintSlot

/-- Using a slot value in a pint computation: a pint unit is used directly; a
pyomo expression object in the slot triggers dynamically-typed host behavior
that the model treats as an opaque host-side failure. -/
def requirePint : PintSlot → Except PyErr PintUnit
  | .pint u => .ok u
  | .pyomo _ => .error .hostDynamic

/-- The signature shared by all `_get_unit_for_*` visitor methods: parent
node and the child result tuples, producing a result tuple or an error. -/
abbrev UnitRule := PExpr → List RTuple → Except PyErr RTuple

/-- The verification loop of `_get_unit_for_equivalent_children`: each later
child's pint unit is compared with the first child's (`s0`), raising
`InconsistentUnitsError` on the first one that is not equivalent. -/
def eqChildrenCheck (node : PExpr) (s0 : PintSlot) : List RTuple → Except PyErr Unit
  | [] => .ok ()
  | t :: rest => do
      let u0 ← requirePint s0
      let ui ← requirePint t.2
      if pintEquiv u0 ui then eqChildrenCheck node s0 rest
      else .error (.inconsistentUnits (.pintU u0) (.pintU ui) node)

/-- Embedding of `_get_unit_for_equivalent_children` (equality, inequality,
ranged and sum nodes): asserts a nonempty child list, verifies every later
child against the first, and returns the first child's tuple. -/
def getUnitForEquivalentChildren : UnitRule := fun node ts =>
  match ts with
  | [] => .error .assertionError
  | t0 :: rest => do
      eqChildrenCheck node t0.2 rest
      .ok (t0.1, t0.2)

/-- The accumulation loop of `_get_unit_for_product`: children equivalent to
dimensionless are skipped; the rest are multiplied left to right, on both the
pyomo and the pint side; if every child was skipped the container's
dimensionless unit is returned. -/
def prodLoop : List RTuple → Option (PyomoUnitT × PintUnit) → Except PyErr RTuple
  | [], none => .ok (pyomoDimensionless, .pint dimensionlessPint)
  | [], some acc => .ok (acc.1, .pint acc.2)
  | t :: rest, acc => do
      let ui ← requirePint t.2
      if pintEquiv ui dimensionlessPint then prodLoop rest acc
      else
        match acc with
        | none => prodLoop rest (some (t.1, ui))
        | some a => prodLoop rest (some (a.1.mul t.1, a.2.mul ui))

/-- Embedding of `_get_unit_for_product` (product and monomial-term nodes):
asserts at least two children, then runs the accumulation loop. -/
def getUnitForProduct : UnitRule := fun _ ts =>
  match ts with
  | [] => .error .assertionError
  | [_] => .error .assertionError
  | _ => prodLoop ts none

/-- Embedding of `_get_unit_for_reciprocal`: a dimensionless child passes
through unchanged, otherwise both sides are inverted via `1.0/x`. -/
def getUnitForReciprocal : UnitRule := fun _ ts =>
  match ts with
  | [t] => do
      let u ← requirePint t.2
      if pintEquiv u dimensionlessPint then .ok (t.1, t.2)
      else .ok (.recip t.1, .pint u.inv)
  | _ => .error .assertionError

/-- Embedding of `_get_unit_for_pow`.  The exponent's unit must be
equivalent to dimensionless.  With a dimensionless base the source returns
`(pyomo_unit_base, pyomo_unit_exponent)` — the pyomo exponent unit object in
the pint slot — before any fixedness check.  With a dimensioned base the
exponent node must be a native number, fixed, or constant, else `UnitsError`;
its numeric value then exponentiates both base units. -/
def getUnitForPow : UnitRule := fun node ts =>
  match ts with
  | [tb, te] => do
      let ue ← requirePint te.2
      if ¬ pintEquiv ue dimensionlessPint then
        .error (.unitsError .exponentNotDimensionless node)
      else do
        let ub ← requirePint tb.2
        if pintEquiv ub dimensionlessPint then
          .ok (tb.1, .pyomo te.1)
        else
          match (argsOf node).get? 1 with
          | none => .error .hostDynamic
          | some exponent =>
            if !(isNativeLeaf exponent)
                && !(isFixedE exponent || isConstE exponent) then
              .error (.unitsError .exponentNotFixed node)
            else do
              let v ← evalE exponent
              .ok (tb.1.pow v, .pint (ub.pow v))
  | _ => .error .assertionError

/-- Embedding of `_get_unit_for_single_child` (negation, abs, ceil, floor):
passthrough of the single child's tuple. -/
def getUnitForSingleChild : UnitRule := fun _ ts =>
  match ts with
  | [t] => .ok (t.1, t.2)
  | _ => .error .assertionError

/-- The loop of `_get_dimensionless_with_dimensionless_children`, tracking
the most recent loop variables: each child must be equivalent to
dimensionless, else `UnitsError`; after the loop the source returns the loop
variables, i.e. the LAST child's tuple — and with no children at all the
loop variables were never bound, so reading them raises
`UnboundLocalError`. -/
def dlessChildrenLoop (node : PExpr) :
    List RTuple → Option RTuple → Except PyErr RTuple
  | [], none => .error .unboundLocalError
  | [], some last => .ok last
  | t :: rest, _ => do
      let u ← requirePint t.2
      if ¬ pintEquiv u dimensionlessPint then
        .error (.unitsError .expectedDimensionless node)
      else dlessChildrenLoop node rest (some t)

/-- Embedding of `_get_dimensionless_with_dimensionless_children` (log,
log10, exp, external-function and item-access nodes). -/
def getDimensionlessWithDimensionlessChildren : UnitRule := fun node ts =>
  dlessChildrenLoop node ts none

/-- Embedding of `_get_dimensionless_with_radians_child` (sin, cos, tan,
sinh, cosh, tanh): the argument must be equivalent to radians; returns the
container's dimensionless unit and the pint dimensionless unit. -/
def getDimensionlessWithRadiansChild : UnitRule := fun node ts =>
  match ts with
  | [t] => do
      let u ← requirePint t.2
      if ¬ pintEquiv u radiansPint then
        .error (.unitsError .expectedRadians node)
      else .ok (pyomoDimensionless, .pint dimensionlessPint)
  | _ => .error .assertionError

/-- Embedding of `_get_radians_with_dimensionless_child` (asin, acos, atan,
asinh, acosh, atanh): the argument must be equivalent to dimensionless;
returns the container's radians unit and the pint radians unit. -/
def getRadiansWithDimensionlessChild : UnitRule := fun node ts =>
  match ts with
  | [t] => do
      let u ← requirePint t.2
      if ¬ pintEquiv u dimensionlessPint then
        .error (.unitsError .expectedDimensionlessArg node)
      else .ok (pyomoRadians, .pint radiansPint)
  | _ => .error .assertionError

/-- Embedding of `_get_unit_sqrt`: dimensionless in, dimensionless out;
otherwise both sides are raised to the power 0.5. -/
def getUnitSqrt : UnitRule := fun _ ts =>
  match ts with
  | [t] => do
      let u ← requirePint t.2
      if pintEquiv u dimensionlessPint then
        .ok (pyomoDimensionless, .pint dimensionlessPint)
      else .ok (t.1.pow (1 / 2), .pint (u.pow (1 / 2)))
  | _ => .error .assertionError

/-- Embedding of `_get_unit_for_expr_if`: the condition branch is already
validated; then and else must be mutually equivalent (the raised
`InconsistentUnitsError` here names the pyomo units); result is the
then-branch's tuple. -/
def getUnitForExprIf : UnitRule := fun node ts =>
  match ts with
  | [_, tt, te] => do
      let ut ← requirePint tt.2
      let ue ← requirePint te.2
      if ¬ pintEquiv ut ue then
        .error (.inconsistentUnits (.pyomoU tt.1) (.pyomoU te.1) node)
      else .ok (tt.1, tt.2)
  | _ => .error .assertionError

/-- Embedding of the class attribute `unary_function_method_map`, keyed by
function name. -/
def unaryFunctionMethodMap : String → Option UnitRule
  | "log" => some getDimensionlessWithDimensionlessChildren
  | "log10" => some getDimensionlessWithDimensionlessChildren
  | "sin" => some getDimensionlessWithRadiansChild
  | "cos" => some getDimensionlessWithRadiansChild
  | "tan" => some getDimensionlessWithRadiansChild
  | "sinh" => some getDimensionlessWithRadiansChild
  | "cosh" => some getDimensionlessWithRadiansChild
  | "tanh" => some getDimensionlessWithRadiansChild
  | "asin" => some getRadiansWithDimensionlessChild
  | "acos" => some getRadiansWithDimensionlessChild
  | "atan" => some getRadiansWithDimensionlessChild
  | "exp" => some getDimensionlessWithDimensionlessChildren
  | "sqrt" => some getUnitSqrt
  | "asinh" => some getRadiansWithDimensionlessChild
  | "acosh" => some getRadiansWithDimensionlessChild
  | "atanh" => some getRadiansWithDimensionlessChild
  | "ceil" => some getUnitForSingleChild
  | "floor" => some getUnitForSingleChild
  | _ => none

/-- The function name `node.getname()` of a unary function node. -/
def nodeFuncName : PExpr → Option String
  | .unaryFunc n _ => some n
  | _ => none

/-- Embedding of `_get_unit_for_unary_function`: asserts a single child,
looks the function name up in `unary_function_method_map`, and dispatches;
an absent name raises a `TypeError` naming the function. -/
def getUnitForUnaryFunction : UnitRule := fun node ts =>
  match ts with
  | [t] =>
    match nodeFuncName node with
    | some name =>
      match unaryFunctionMethodMap name with
      | some rule => rule node [t]
      | none => .error (.typeErrorFunc name node)
    | none => .error .hostDynamic
  | _ => .error .assertionError

/-- Embedding of the class attribute `node_type_method_map`, keyed by the
expression node's type.  `unknownOp` stands for every expression node type
absent from the source's map, so it yields `none` (LinearExpression and
IndexTemplate are not modelled). -/
def nodeTypeMethodMap : PExpr → Option UnitRule
  | .equality _ _ => some getUnitForEquivalentChildren
  | .inequality _ _ => some getUnitForEquivalentChildren
  | .ranged _ _ _ => some getUnitForEquivalentChildren
  | .sum _ => some getUnitForEquivalentChildren
  | .product _ _ => some getUnitForProduct
  | .monomial _ _ => some getUnitForProduct
  | .reciprocal _ => some getUnitForReciprocal
  | .powNode _ _ => some getUnitForPow
  | .negation _ => some getUnitForSingleChild
  | .absNode _ => some getUnitForSingleChild
  | .unaryFunc _ _ => some getUnitForUnaryFunction
  | .exprIf _ _ _ => some getUnitForExprIf
  | .externalCall _ => some getDimensionlessWithDimensionlessChildren
  | .getItem _ => some getDimensionlessWithDimensionlessChildren
  | _ => none

/-- Embedding of `_UnitExtractionVisitor.exitNode`: a `_PyomoUnit` leaf
returns itself with its pint unit; any other leaf is treated as
dimensionless; a non-leaf dispatches through `node_type_method_map`, and a
type absent from the map raises a `TypeError` naming the node type. -/
def exitNode (node : PExpr) (data : List RTuple) : Except PyErr RTuple :=
  if isLeafE node then
    match node with
    | .punit u => .ok (.unit u, .pint u)
    | _ => .ok (pyomoDimensionless, .pint dimensionlessPint)
  else
    match nodeTypeMethodMap node with
    | some rule => rule node data
    | none => .error (.typeErrorNode node)

mutual
/-- Embedding of the post-order walk of `StreamBasedExpressionVisitor`:
children are processed left to right, the first raised exception aborts the
whole traversal, and `exitNode` combines the child tuples. -/
def walkE : PExpr → Except PyErr RTuple
  | .num q => exitNode (.num q) []
  | .punit u => exitNode (.punit u) []
  | .leafVar f v => exitNode (.leafVar f v) []
  | .equality a b => do
      let ra ← walkE a
      let rb ← walkE b
      exitNode (.equality a b) [ra, rb]
  | .inequality a b => do
      let ra ← walkE a
      let rb ← walkE b
      exitNode (.inequality a b) [ra, rb]
  | .ranged a b c => do
      let ra ← walkE a
      let rb ← walkE b
      let rc ← walkE c
      exitNode (.ranged a b c) [ra, rb, rc]
  | .sum args => do
      let rs ← walkL args
      exitNode (.sum args) rs
  | .product a b => do
      let ra ← walkE a
      let rb ← walkE b
      exitNode (.product a b) [ra, rb]
  | .monomial c v => do
      let rc ← walkE c
      let rv ← walkE v
      exitNode (.monomial c v) [rc, rv]
  | .reciprocal a => do
      let ra ← walkE a
      exitNode (.reciprocal a) [ra]
  | .powNode b e => do
      let rb ← walkE b
      let re ← walkE e
      exitNode (.powNode b e) [rb, re]
  | .negation a => do
      let ra ← walkE a
      exitNode (.negation a) [ra]
  | .absNode a => do
      let ra ← walkE a
      exitNode (.absNode a) [ra]
  | .unaryFunc n a => do
      let ra ← walkE a
      exitNode (.unaryFunc n a) [ra]
  | .exprIf c t e => do
      let rc ← walkE c
      let rt ← walkE t
      let re ← walkE e
      exitNode (.exprIf c t e) [rc, rt, re]
  | .externalCall args => do
      let rs ← walkL args
      exitNode (.externalCall args) rs
  | .getItem args => do
      let rs ← walkL args
      exitNode (.getItem args) rs
  | .unknownOp args => do
      let rs ← walkL args
      exitNode (.unknownOp args) rs

/-- Post-order walk of a list of child nodes, left to right. -/
def walkL : List PExpr → Except PyErr (List RTuple)
  | [] => .ok []
  | e :: es => do
      let r ← walkE e
      let rs ← walkL es
      .ok (r :: rs)
end

/-- Embedding of `_get_units_tuple`: constructs the visitor (with the
default tolerance) and walks the expression. -/
def getUnitsTuple (e : PExpr) : Except PyErr RTuple := walkE e

/-- Embedding of `get_units`: the pyomo component of the walked tuple. -/
def get_units (e : PExpr) : Except PyErr PyomoUnitT :=
  (getUnitsTuple e).map Prod.fst

/-- Python objects that can be passed for the `allow_exceptions` keyword,
distinguishing the singleton `True` from merely truthy values. -/
inductive PyVal where
  | pyTrue
  | pyFalse
  | pyNone
  | pyInt (n : ℤ)
  | pyStr (s : String)
deriving DecidableEq, Repr

/-- Embedding of `check_units_consistency`: the raising branch is selected
by the identity test `allow_exceptions is True`; any other argument value
falls through to a bare `try/except` that swallows EVERY exception and
returns False. -/
def check_units_consistency (e : PExpr) (allowExceptions : PyVal) :
    Except PyErr Bool :=
  if allowExceptions = .pyTrue then do
    let _ ← getUnitsTuple e
    .ok true
  else
    match getUnitsTuple e with
    | .ok _ => .ok true
    | .error _ => .ok false

/-- Embedding of attribute access inside the pint registry: a known name
yields its unit, an unknown one raises `pint.errors.UndefinedUnitError`. -/
def pintGetattr (reg : String → Option PintUnit) (name : String) :
    Except PyErr PintUnit :=
  match reg name with
  | some u => .ok u
  | none => .error (.pintUndefinedUnit name)

/-- Embedding of unit lookup on `PyomoUnitsContainer`.  Normal Python
attribute access returns a previously `setattr`-cached unit without invoking
`__getattr__`; otherwise `__getattr__` asks the pint registry, wraps a found
unit in `_PyomoUnit`, caches it with `setattr` and returns it, and catches
pint's `UndefinedUnitError`, raising a fresh builtin `AttributeError`
instead.  The cache is the container's attribute dictionary. -/
def containerGetattr (reg : String → Option PintUnit)
    (cache : List (String × PyomoUnitT)) (name : String) :
    Except PyErr (PyomoUnitT × List (String × PyomoUnitT)) :=
  match cache.lookup name with
  | some u => .ok (u, cache)
  | none =>
    match pintGetattr reg name with
    | .ok pu =>
        let u : PyomoUnitT := .unit pu
        .ok (u, (name, u) :: cache)
    | .error _ => .error (.attributeError name)

/-- Modelled from the spec: the error taxonomy of section 7 — UnitsError,
InconsistentUnitsError, the TypeError-class unsupported-node failures, and
UndefinedUnitError.  Host-side failures (ValueError, ZeroDivisionError,
AssertionError, UnboundLocalError, dynamic-typing failures) are outside the
taxonomy. -/
def isTaxonomyError : PyErr → Bool
  | .unitsError _ _ => true
  | .inconsistentUnits _ _ _ => true
  | .typeErrorNode _ => true
  | .typeErrorFunc _ _ => true
  | .pintUndefinedUnit _ => true
  | _ => false

/-- True exactly when an `Except` computation returned normally. -/
def exceptOk {α : Type} (x : Except PyErr α) : Bool :=
  match x with
  | .ok _ => true
  | .error _ => false

/-- Packs a list of (pyomo unit, pint unit) pairs into result tuples whose
pint slot is well-typed, the documented shape of `list_of_unit_tuples`. -/
def toSlots (l : List (PyomoUnitT × PintUnit)) : List RTuple :=
  l.map (fun t => (t.1, .pint t.2))

/-- One multiplication step of the product rule on an extracted pair:
pyomo units multiply and pint units multiply. -/
def prodStep (a t : PyomoUnitT × PintUnit) : PyomoUnitT × PintUnit :=
  (a.1.mul t.1, a.2.mul t.2)

/-- A user-defined length unit 6 parts in 10^13 larger than the meter (as
built by `create_new_unit` with conversion factor 1 + 6e-13). -/
def meterPlusPint : PintUnit := ⟨"meterplus", ⟨1, 0, 0⟩, 1 + 6 / 10 ^ 13⟩

/-- A user-defined length unit 6 parts in 10^13 smaller than the meter (as
built by `create_new_unit` with conversion factor 1 - 6e-13). -/
def meterMinusPint : PintUnit := ⟨"meterminus", ⟨1, 0, 0⟩, 1 - 6 / 10 ^ 13⟩

/-- A concrete sample of the pint registry contents, for registry-lookup
scenarios. -/
def sampleRegistry : String → Option PintUnit
  | "meter" => some meterPint
  | "kilogram" => some kilogramPint
  | "second" => some secondPint
  | "radian" => some radiansPint
  | "dimensionless" => some dimensionlessPint
  | _ => none

theorem eqChildrenCheck_toSlots (node : PExpr) (u0 : PintUnit)
    (ts : List (PyomoUnitT × PintUnit)) :
    eqChildrenCheck node (.pint u0) (toSlots ts) =
      match ts.find? (fun t => ! pintEquiv u0 t.2) with
      | none => .ok ()
      | some t => .error (.inconsistentUnits (.pintU u0) (.pintU t.2) node) := by
  induction ts with
  | nil => simp [toSlots, eqChildrenCheck]
  | cons t ts ih =>
    simp only [toSlots, List.map_cons] at ih ⊢
    simp only [eqChildrenCheck, requirePint, List.find?_cons]
    cases h : pintEquiv u0 t.2 <;>
      simp [h, ih, Bind.bind, Except.bind]

/-- Claim C1 counterexample: with `allow_exceptions=False` the bare
`except:` swallows even a host-side `ValueError` (from `value()` of a fixed
but uninitialized Var in a pow exponent) and returns False, where the claim
demands that a non-taxonomy error propagate to the caller. -/
theorem C1_bare_except_counterexample :
    getUnitsTuple (.powNode (.punit meterPint) (.leafVar true none)) =
        .error .valueError ∧
    isTaxonomyError .valueError = false ∧
    check_units_consistency (.powNode (.punit meterPint) (.leafVar true none))
        .pyFalse = .ok false :=
  ⟨rfl, rfl, rfl⟩

/-- Claim C1 (amended): with `allow_exceptions=False`,
`check_units_consistency` returns True exactly when the traversal returns
normally and reduces EVERY traversal exception — from the units taxonomy or
not — to False; it never propagates an error. -/
theorem C1_check_consistency_swallows_everything (e : PExpr) :
    check_units_consistency e .pyFalse = .ok (exceptOk (getUnitsTuple e)) := by
  simp only [check_units_consistency, reduceCtorEq, if_false]
  cases h : getUnitsTuple e <;> simp [exceptOk]

/-- Claim C2 (code bug): for a pow node whose base and exponent units are
both dimensionless, inference succeeds (whether or not the exponent is
fixed), but the source line `return (pyomo_unit_base, pyomo_unit_exponent)`
places the exponent's PYOMO unit object in the slot documented to hold a
pint unit, so the accompanying value is not the pint dimensionless unit —
it is not a pint unit at all. -/
theorem C2_pow_dimensionless_base_slot_bug :
    getUnitForPow (.powNode (.leafVar false none) (.leafVar false none))
        [(pyomoDimensionless, .pint dimensionlessPint),
         (pyomoDimensionless, .pint dimensionlessPint)] =
      .ok (pyomoDimensionless, .pyomo pyomoDimensionless) ∧
    ∀ u : PintUnit, PintSlot.pyomo pyomoDimensionless ≠ PintSlot.pint u :=
  ⟨rfl, fun _ h => PintSlot.noConfusion h⟩

/-- Claim C3: for a pow node with dimensioned base and dimensionless
exponent unit, a not-statically-evaluable exponent raises `UnitsError`,
while an exponent evaluating to `v` yields the base units raised to `v`;
and a non-dimensionless exponent unit raises `UnitsError`. -/
theorem C3_pow_exponent_policy (b ex : PExpr) (pb pe : PyomoUnitT)
    (ub ue : PintUnit) (hbase : pintEquiv ub dimensionlessPint = false) :
    (pintEquiv ue dimensionlessPint = true →
      ((isNativeLeaf ex || isFixedE ex || isConstE ex) = false →
        getUnitForPow (.powNode b ex) [(pb, .pint ub), (pe, .pint ue)] =
          .error (.unitsError .exponentNotFixed (.powNode b ex)))
      ∧ ∀ v : ℚ, (isNativeLeaf ex || isFixedE ex || isConstE ex) = true →
          evalE ex = .ok v →
          getUnitForPow (.powNode b ex) [(pb, .pint ub), (pe, .pint ue)] =
            .ok (pb.pow v, .pint (ub.pow v))) ∧
    (pintEquiv ue dimensionlessPint = false →
      getUnitForPow (.powNode b ex) [(pb, .pint ub), (pe, .pint ue)] =
        .error (.unitsError .exponentNotDimensionless (.powNode b ex))) := by
  constructor
  · intro hue
    constructor
    · intro hnf
      simp only [Bool.or_eq_false_iff] at hnf
      obtain ⟨⟨hn, hfx⟩, hc⟩ := hnf
      simp [getUnitForPow, requirePint, argsOf, hue, hbase, hn, hfx, hc,
        Bind.bind, Except.bind]
    · intro v hf hv
      simp only [Bool.or_eq_true] at hf
      rcases hf with (hf | hf) | hf <;>
        simp [getUnitForPow, requirePint, argsOf, hue, hbase, hf, hv,
          Bind.bind, Except.bind]
  · intro hue
    simp [getUnitForPow, requirePint, hue, Bind.bind, Except.bind]

/-- Witness for C3: `meter ** x` with `x` a fixed Var of value 2 yields
`meter ** 2`. -/
theorem C3_pow_exponent_policy_witness :
    pintEquiv meterPint dimensionlessPint = false ∧
    getUnitForPow (.powNode (.punit meterPint) (.leafVar true (some 2)))
        [(.unit meterPint, .pint meterPint),
         (pyomoDimensionless, .pint dimensionlessPint)] =
      .ok ((PyomoUnitT.unit meterPint).pow 2, .pint (meterPint.pow 2)) := by
  refine ⟨by decide, ?_⟩
  exact ((C3_pow_exponent_policy (.punit meterPint) (.leafVar true (some 2))
      (.unit meterPint) pyomoDimensionless meterPint dimensionlessPint
      (by decide)).1 (by decide)).2 2 (by decide) rfl

/-- Claim C4 counterexample: three length units whose scales are 1,
1 + 6e-13 and 1 - 6e-13.  The second and third are each equivalent to the
first but not to one another (their scales differ by 1.2e-12, beyond the
1e-12 tolerance), so the children are not pairwise equivalent; the claim
demands `InconsistentUnitsError`, yet the code — which only compares each
child against the first — returns the first child's unit. -/
theorem C4_pairwise_counterexample :
    pintEquiv meterPlusPint meterMinusPint = false ∧
    pintEquiv meterMinusPint meterPlusPint = false ∧
    pintEquiv meterPint meterPlusPint = true ∧
    pintEquiv meterPint meterMinusPint = true ∧
    getUnitForEquivalentChildren
        (.sum [.punit meterPint, .punit meterPlusPint, .punit meterMinusPint])
        [(.unit meterPint, .pint meterPint),
         (.unit meterPlusPint, .pint meterPlusPint),
         (.unit meterMinusPint, .pint meterMinusPint)] =
      .ok (.unit meterPint, .pint meterPint) := by
  have hne1 : meterPlusPint ≠ meterMinusPint := by
    simp [meterPlusPint, meterMinusPint]
  have hne2 : meterMinusPint ≠ meterPlusPint := fun h => hne1 h.symm
  have hne3 : meterPint ≠ meterPlusPint := by
    simp [meterPint, meterPlusPint]
  have hne4 : meterPint ≠ meterMinusPint := by
    simp [meterPint, meterMinusPint]
  have h1 : pintEquiv meterPlusPint meterMinusPint = false := by
    simp only [pintEquiv, pintUnitsEquivalentTol, if_neg hne1,
      meterPlusPint, meterMinusPint, unitsEquivalenceTolerance]
    norm_num
    rw [abs_of_pos (by norm_num)]
    norm_num
  have h2 : pintEquiv meterMinusPint meterPlusPint = false := by
    simp only [pintEquiv, pintUnitsEquivalentTol, if_neg hne2,
      meterPlusPint, meterMinusPint, unitsEquivalenceTolerance]
    norm_num
    rw [abs_of_pos (by norm_num)]
    norm_num
  have h3 : pintEquiv meterPint meterPlusPint = true := by
    simp only [pintEquiv, pintUnitsEquivalentTol, if_neg hne3,
      meterPint, meterPlusPint, unitsEquivalenceTolerance]
    norm_num
    rw [abs_of_pos (by norm_num)]
    norm_num
  have h4 : pintEquiv meterPint meterMinusPint = true := by
    simp only [pintEquiv, pintUnitsEquivalentTol, if_neg hne4,
      meterPint, meterMinusPint, unitsEquivalenceTolerance]
    norm_num
    rw [abs_of_pos (by norm_num)]
    norm_num
  refine ⟨h1, h2, h3, h4, ?_⟩
  simp [getUnitForEquivalentChildren, eqChildrenCheck, requirePint, h3, h4,
    Bind.bind, Except.bind]

/-- Claim C4 (amended): the equal-children rule compares each later child
against the FIRST child only: it returns the first child's tuple when every
later child's unit is equivalent to the first child's, and otherwise raises
`InconsistentUnitsError` naming the first child's unit, the first
non-equivalent later unit, and the parent node. -/
theorem C4_amended_first_child_comparison (node : PExpr)
    (t0 : PyomoUnitT × PintUnit) (ts : List (PyomoUnitT × PintUnit)) :
    getUnitForEquivalentChildren node (toSlots (t0 :: ts)) =
      match ts.find? (fun t => ! pintEquiv t0.2 t.2) with
      | none => .ok (t0.1, .pint t0.2)
      | some t =>
          .error (.inconsistentUnits (.pintU t0.2) (.pintU t.2) node) := by
  have h := eqChildrenCheck_toSlots node t0.2 ts
  simp only [toSlots, List.map_cons] at h ⊢
  simp only [getUnitForEquivalentChildren, h, Bind.bind, Except.bind]
  cases hf : ts.find? (fun t => ! pintEquiv t0.2 t.2) <;> simp [hf]

theorem prodLoop_toSlots (ts : List (PyomoUnitT × PintUnit))
    (acc : Option (PyomoUnitT × PintUnit)) :
    prodLoop (toSlots ts) acc =
      match ts.filter (fun t => ! pintEquiv t.2 dimensionlessPint), acc with
      | [], none => .ok (pyomoDimensionless, .pint dimensionlessPint)
      | [], some a => .ok (a.1, .pint a.2)
      | f :: rest, none =>
          .ok ((rest.foldl prodStep f).1, .pint (rest.foldl prodStep f).2)
      | fs, some a =>
          .ok ((fs.foldl prodStep a).1, .pint (fs.foldl prodStep a).2) := by
  induction ts generalizing acc with
  | nil => cases acc <;> simp [toSlots, prodLoop]
  | cons t ts ih =>
    simp only [toSlots, List.map_cons] at ih ⊢
    simp only [prodLoop, requirePint, Bind.bind, Except.bind, List.filter_cons]
    cases h : pintEquiv t.2 dimensionlessPint with
    | true =>
      simp only [h, Bool.not_true, Bool.false_eq_true, if_false]
      cases acc <;> simp [ih]
    | false =>
      simp only [h, Bool.false_eq_true, if_false]
      cases acc with
      | none =>
        simp only [ih]
        cases hf : ts.filter (fun t => ! pintEquiv t.2 dimensionlessPint) <;>
          simp [hf]
      | some a =>
        simp only [ih]
        cases hf : ts.filter (fun t => ! pintEquiv t.2 dimensionlessPint) <;>
          simp [hf, prodStep]

/-- Claim C5: the product rule returns the left-to-right product of exactly
the children not equivalent to dimensionless (dimensionless if there are
none) and never raises a units error. -/
theorem C5_product_rule (node : PExpr) (ts : List (PyomoUnitT × PintUnit))
    (h : 2 ≤ ts.length) :
    getUnitForProduct node (toSlots ts) =
      match ts.filter (fun t => ! pintEquiv t.2 dimensionlessPint) with
      | [] => .ok (pyomoDimensionless, .pint dimensionlessPint)
      | f :: rest =>
          .ok ((rest.foldl prodStep f).1, .pint (rest.foldl prodStep f).2) := by
  cases ts with
  | nil => simp at h
  | cons t1 ts1 =>
    cases ts1 with
    | nil => simp at h
    | cons t2 rest =>
      have hp := prodLoop_toSlots (t1 :: t2 :: rest) none
      simp only [toSlots, List.map_cons] at hp ⊢
      simp only [getUnitForProduct]
      rw [hp]
      cases hf : (t1 :: t2 :: rest).filter
          (fun t => ! pintEquiv t.2 dimensionlessPint) <;> simp [hf]

/-- Witness for C5: meter times dimensionless times kilogram yields
meter times kilogram. -/
theorem C5_product_rule_witness :
    2 ≤ ([((PyomoUnitT.unit meterPint), meterPint),
          (pyomoDimensionless, dimensionlessPint),
          (.unit kilogramPint, kilogramPint)] :
            List (PyomoUnitT × PintUnit)).length ∧
    getUnitForProduct (.product (.punit meterPint) (.punit kilogramPint))
        (toSlots [((PyomoUnitT.unit meterPint), meterPint),
          (pyomoDimensionless, dimensionlessPint),
          (.unit kilogramPint, kilogramPint)]) =
      .ok ((PyomoUnitT.unit meterPint).mul (.unit kilogramPint),
           .pint (meterPint.mul kilogramPint)) := by
  refine ⟨by decide, ?_⟩
  rw [C5_product_rule (.product (.punit meterPint) (.punit kilogramPint)) _
    (by decide)]
  rfl

/-- Claim C6 (code bug): an external-call or item-access node with zero
children makes the all-dimensionless check loop over an empty sequence; the
final `return (pyomo_unit, pint_unit)` then reads loop variables that were
never bound, raising a host `UnboundLocalError` instead of returning the
dimensionless unit as documented. -/
theorem C6_empty_call_unbound_local :
    getUnitsTuple (.externalCall []) = .error .unboundLocalError ∧
    getDimensionlessWithDimensionlessChildren (.externalCall []) [] =
      .error .unboundLocalError ∧
    isTaxonomyError .unboundLocalError = false :=
  ⟨rfl, rfl, rfl⟩

/-- Claim C7: sin, cos, tan, sinh, cosh, tanh require an argument
equivalent to radians and return dimensionless, raising `UnitsError`
otherwise; asin, acos, atan, asinh, acosh, atanh require a dimensionless
argument and return radians, raising `UnitsError` otherwise. -/
theorem C7_trig_function_policy (name : String) (arg : PExpr)
    (p : PyomoUnitT) (u : PintUnit) :
    (name ∈ ["sin", "cos", "tan", "sinh", "cosh", "tanh"] →
      getUnitForUnaryFunction (.unaryFunc name arg) [(p, .pint u)] =
        if pintEquiv u radiansPint then
          .ok (pyomoDimensionless, .pint dimensionlessPint)
        else .error (.unitsError .expectedRadians (.unaryFunc name arg))) ∧
    (name ∈ ["asin", "acos", "atan", "asinh", "acosh", "atanh"] →
      getUnitForUnaryFunction (.unaryFunc name arg) [(p, .pint u)] =
        if pintEquiv u dimensionlessPint then
          .ok (pyomoRadians, .pint radiansPint)
        else
          .error (.unitsError .expectedDimensionlessArg
            (.unaryFunc name arg))) := by
  constructor
  · intro h
    simp only [List.mem_cons, List.not_mem_nil, or_false] at h
    rcases h with rfl | rfl | rfl | rfl | rfl | rfl <;>
    · simp only [getUnitForUnaryFunction, nodeFuncName, unaryFunctionMethodMap,
        getDimensionlessWithRadiansChild, requirePint, Bind.bind, Except.bind]
      cases hu : pintEquiv u radiansPint <;> simp [hu]
  · intro h
    simp only [List.mem_cons, List.not_mem_nil, or_false] at h
    rcases h with rfl | rfl | rfl | rfl | rfl | rfl <;>
    · simp only [getUnitForUnaryFunction, nodeFuncName, unaryFunctionMethodMap,
        getRadiansWithDimensionlessChild, requirePint, Bind.bind, Except.bind]
      cases hu : pintEquiv u dimensionlessPint <;> simp [hu]

/-- Witness for C7: sin of a radians argument is dimensionless, sin of a
meter argument raises `UnitsError`, and asin of a dimensionless argument
returns radians. -/
theorem C7_trig_function_policy_witness :
    ("sin" ∈ ["sin", "cos", "tan", "sinh", "cosh", "tanh"]) ∧
    getUnitForUnaryFunction (.unaryFunc "sin" (.num 0))
        [(pyomoRadians, .pint radiansPint)] =
      .ok (pyomoDimensionless, .pint dimensionlessPint) ∧
    getUnitForUnaryFunction (.unaryFunc "sin" (.punit meterPint))
        [(.unit meterPint, .pint meterPint)] =
      .error (.unitsError .expectedRadians (.unaryFunc "sin" (.punit meterPint))) ∧
    getUnitForUnaryFunction (.unaryFunc "asin" (.num 0))
        [(pyomoDimensionless, .pint dimensionlessPint)] =
      .ok (pyomoRadians, .pint radiansPint) := by
  refine ⟨by decide, ?_, ?_, ?_⟩
  · have h := (C7_trig_function_policy "sin" (.num 0) pyomoRadians
      radiansPint).1 (by decide)
    rw [h]
    rfl
  · have h := (C7_trig_function_policy "sin" (.punit meterPint)
      (.unit meterPint) meterPint).1 (by decide)
    rw [h]
    rfl
  · have h := (C7_trig_function_policy "asin" (.num 0) pyomoDimensionless
      dimensionlessPint).2 (by decide)
    rw [h]
    rfl

/-- Claim C8: a non-leaf node whose type is absent from
`node_type_method_map` and a unary function whose name is absent from
`unary_function_method_map` both raise a `TypeError` naming the unhandled
node type or function name; neither is assigned any unit. -/
theorem C8_unhandled_type_errors (args : List PExpr) (data : List RTuple)
    (name : String) (arg : PExpr) (t : RTuple)
    (h : unaryFunctionMethodMap name = none) :
    exitNode (.unknownOp args) data =
      .error (.typeErrorNode (.unknownOp args)) ∧
    getUnitForUnaryFunction (.unaryFunc name arg) [t] =
      .error (.typeErrorFunc name (.unaryFunc name arg)) := by
  constructor
  · simp [exitNode, isLeafE, nodeTypeMethodMap]
  · simp [getUnitForUnaryFunction, nodeFuncName, h]

/-- Witness for C8 at the unsupported function name "log2" and an
unsupported expression node kind. -/
theorem C8_unhandled_type_errors_witness :
    unaryFunctionMethodMap "log2" = none ∧
    exitNode (.unknownOp [.num 1]) [(pyomoDimensionless, .pint dimensionlessPint)] =
      .error (.typeErrorNode (.unknownOp [.num 1])) ∧
    getUnitForUnaryFunction (.unaryFunc "log2" (.num 1))
        [(pyomoDimensionless, .pint dimensionlessPint)] =
      .error (.typeErrorFunc "log2" (.unaryFunc "log2" (.num 1))) := by
  refine ⟨rfl, ?_, ?_⟩
  · exact (C8_unhandled_type_errors [.num 1]
      [(pyomoDimensionless, .pint dimensionlessPint)] "log2" (.num 1)
      (pyomoDimensionless, .pint dimensionlessPint) rfl).1
  · exact (C8_unhandled_type_errors [.num 1]
      [(pyomoDimensionless, .pint dimensionlessPint)] "log2" (.num 1)
      (pyomoDimensionless, .pint dimensionlessPint) rfl).2

/-- Claim C9 counterexample: looking up the unknown name "florp" raises a
builtin `AttributeError`, not an `UndefinedUnitError` — the pint-level
`UndefinedUnitError` is caught inside `__getattr__` and replaced. -/
theorem C9_attribute_error_counterexample :
    containerGetattr sampleRegistry [] "florp" =
      .error (.attributeError "florp") ∧
    pintGetattr sampleRegistry "florp" = .error (.pintUndefinedUnit "florp") ∧
    PyErr.attributeError "florp" ≠ PyErr.pintUndefinedUnit "florp" :=
  ⟨rfl, rfl, fun h => PyErr.noConfusion h⟩

/-- Claim C9 (amended): an unknown unit name fails with a builtin
`AttributeError` (pint's `UndefinedUnitError` being caught internally); a
known name returns a `_PyomoUnit` wrapping the pint unit and caches it, so
a later lookup returns the identical instance with no registry access. -/
theorem C9_lookup_and_cache (reg : String → Option PintUnit) (name : String)
    (cache : List (String × PyomoUnitT)) (hc : cache.lookup name = none) :
    (reg name = none →
      containerGetattr reg cache name = .error (.attributeError name)) ∧
    (∀ pu, reg name = some pu →
      containerGetattr reg cache name =
        .ok (.unit pu, (name, .unit pu) :: cache) ∧
      containerGetattr reg ((name, .unit pu) :: cache) name =
        .ok (.unit pu, (name, .unit pu) :: cache)) := by
  constructor
  · intro h
    simp [containerGetattr, pintGetattr, hc, h]
  · intro pu h
    constructor
    · simp [containerGetattr, pintGetattr, hc, h]
    · simp [containerGetattr, List.lookup]

/-- Witness for C9 (amended): looking "meter" up in the sample registry
caches it and a second lookup returns the identical cached unit. -/
theorem C9_lookup_and_cache_witness :
    containerGetattr sampleRegistry [] "meter" =
      .ok (.unit meterPint, [("meter", .unit meterPint)]) ∧
    containerGetattr sampleRegistry [("meter", .unit meterPint)] "meter" =
      .ok (.unit meterPint, [("meter", .unit meterPint)]) := by
  have h := (C9_lookup_and_cache sampleRegistry "meter" [] rfl).2 meterPint rfl
  exact h

/-- Claim C10: `check_units_consistency` selects its mode by the identity
test `allow_exceptions is True`: every other value — including truthy ones
such as the integer 1 — takes the exception-swallowing branch and returns a
boolean, while exactly `True` lets traversal errors propagate. -/
theorem C10_identity_comparison_with_True (v : PyVal) (hv : v ≠ .pyTrue)
    (e : PExpr) :
    check_units_consistency e v = .ok (exceptOk (getUnitsTuple e)) ∧
    (∀ err : PyErr, getUnitsTuple e = .error err →
      check_units_consistency e .pyTrue = .error err) := by
  constructor
  · simp only [check_units_consistency, if_neg hv]
    cases h : getUnitsTuple e <;> simp [exceptOk]
  · intro err h
    simp [check_units_consistency, h, Bind.bind, Except.bind]

/-- Witness for C10: the truthy value 1 still swallows the traversal's
`ValueError`, returning False. -/
theorem C10_identity_comparison_witness :
    (PyVal.pyInt 1 ≠ PyVal.pyTrue) ∧
    check_units_consistency (.powNode (.punit meterPint) (.leafVar true none))
        (.pyInt 1) = .ok false := by
  refine ⟨by decide, ?_⟩
  have h := (C10_identity_comparison_with_True (.pyInt 1) (by decide)
    (.powNode (.punit meterPint) (.leafVar true none))).1
  rw [h]
  rfl
